/-
Verification of the campaign-creation validation/submission logic and the
OAuth callback handler of the X-Auto-DM frontend.

The definitions below are a shallow embedding of the TypeScript source:
  * `src/app/dm/page.tsx` — `validateUsername`, `validateListId`,
    `validateTemplate`, `validateForm`, `createCampaign`, `resetForm`,
    `handleFileUpload`, `handleDrop`, `handleCSVUpload`,
    `handleFollowerScraping`, `handleListMemberScraping`;
  * `src/app/auth/x/callback/page.tsx` — `handleCallback`.

JavaScript strings are modelled as Lean `String`; `null`-able query and
storage values as `Option String`, with JS truthiness of such a value
(`null` and `""` are falsy) modelled by `truthy`.  Regex tests are encoded
as predicates over the string's character list.  Network calls, posted
window messages and session-storage operations are collected in explicit
result records so that "no network call is made" and similar frame
properties are expressible.
-/
import Mathlib

namespace XAutoDM

/-- JS truthiness of a nullable string: `null` and the empty string are falsy. -/
def truthy : Option String → Bool
  | none => false
  | some s => !s.isEmpty

/-- JS `String.prototype.trim()`: strip leading and trailing whitespace,
encoded over the string's character list. -/
def jsTrim (s : String) : String :=
  String.mk (((s.data.dropWhile Char.isWhitespace).reverse.dropWhile Char.isWhitespace).reverse)

/-- JS `String.prototype.includes(c)` for a single character, encoded over
the string's character list. -/
def jsIncludes (s : String) (c : Char) : Bool :=
  s.data.contains c

/-- JS `String.prototype.endsWith(suf)`, encoded over the character lists. -/
def jsEndsWith (s : String) (suf : String) : Bool :=
  suf.data.isSuffixOf s.data

/-! ## Campaign draft data model (src/app/dm/page.tsx) -/

/-- The `target_type` union `'user_followers' | 'list_members' | 'csv_upload'`. -/
inductive TargetType where
  | user_followers
  | list_members
  | csv_upload
deriving Repr, DecidableEq

/-- The `newCampaign` form object (`src/app/dm/page.tsx`, lines 127–136). -/
structure CampaignDraft where
  name : String
  description : String
  target_type : TargetType
  target_identifier : String
  verified_only : Bool
  message_template : String
  sender_account_id : Nat
  daily_limit : Nat
deriving Repr, DecidableEq

/-- A browser `File` object: the fields the code inspects (`name`, `type`, `size`). -/
structure JSFile where
  name : String
  type : String
  size : Nat
deriving Repr, DecidableEq

/-- The initial / reset value of `newCampaign` (lines 127–136 and `resetForm`). -/
def initialDraft : CampaignDraft :=
  { name := ""
    description := ""
    target_type := .user_followers
    target_identifier := ""
    verified_only := false
    message_template := ""
    sender_account_id := 0
    daily_limit := 50 }

/-! ## Validation functions (src/app/dm/page.tsx, lines 167–212) -/

/-- The character class `[a-zA-Z0-9_]` of the username regex. -/
def isWordChar (c : Char) : Bool :=
  (('a' ≤ c && c ≤ 'z') || ('A' ≤ c && c ≤ 'Z') || ('0' ≤ c && c ≤ '9') || c = '_')

/-- The regex test `/^[a-zA-Z0-9_]+$/.test s`: nonempty and every character in the class. -/
def wordRegexTest (s : String) : Bool :=
  !s.isEmpty && s.data.all isWordChar

/-- The regex test `/^\d+$/.test s`: nonempty and every character a decimal digit. -/
def digitRegexTest (s : String) : Bool :=
  !s.isEmpty && s.data.all Char.isDigit

/-- `validateUsername` (lines 167–173): returns an error message or `null`. -/
def validateUsername (username : String) : Option String :=
  if (jsTrim username).isEmpty then some "Username is required"
  else if jsIncludes username '@' then some "Enter username without @ symbol"
  else if username.length < 1 || username.length > 15 then
    some "Username must be 1-15 characters"
  else if !wordRegexTest username then
    some "Username can only contain letters, numbers, and underscores"
  else none

/-- `validateListId` (lines 175–179). -/
def validateListId (listId : String) : Option String :=
  if (jsTrim listId).isEmpty then some "List ID is required"
  else if !digitRegexTest listId then some "List ID must be numeric"
  else none

/-- `validateTemplate` (lines 181–186). -/
def validateTemplate (template : String) : Option String :=
  if (jsTrim template).isEmpty then some "Message template is required"
  else if template.length > 280 then some "Message template must be 280 characters or less"
  else if template.length < 10 then some "Message template should be at least 10 characters"
  else none

/-- The `validationErrors` object written by `validateForm`: one optional
message per field key that `validateForm` may populate (`none` = key absent). -/
structure ValidationErrorSet where
  name : Option String
  sender_account_id : Option String
  message_template : Option String
  target_identifier : Option String
  csv_file : Option String
deriving Repr, DecidableEq

/-- `Object.keys(errors).length === 0` for a `ValidationErrorSet`. -/
def ValidationErrorSet.isEmpty (e : ValidationErrorSet) : Bool :=
  e.name.isNone && e.sender_account_id.isNone && e.message_template.isNone
    && e.target_identifier.isNone && e.csv_file.isNone

/-- The error set with no entries. -/
def emptyErrors : ValidationErrorSet :=
  { name := none, sender_account_id := none, message_template := none
    target_identifier := none, csv_file := none }

/-- The `errors` object computed by `validateForm` (lines 188–212) from the
draft and the currently attached `csvFile`. -/
def validationErrorsOf (d : CampaignDraft) (csvFile : Option JSFile) : ValidationErrorSet :=
  { name := if (jsTrim d.name).isEmpty then some "Campaign name is required" else none
    sender_account_id :=
      if d.sender_account_id = 0 then some "Please select an X account" else none
    message_template := validateTemplate d.message_template
    target_identifier :=
      match d.target_type with
      | .user_followers => validateUsername d.target_identifier
      | .list_members => validateListId d.target_identifier
      | .csv_upload => none
    csv_file :=
      match d.target_type, csvFile with
      | .csv_upload, none => some "Please select a CSV file"
      | _, _ => none }

/-- `validateForm` (lines 188–212): true iff the computed error set is empty. -/
def validateForm (d : CampaignDraft) (csvFile : Option JSFile) : Bool :=
  (validationErrorsOf d csvFile).isEmpty

/-! ## CSV file selection handlers (src/app/dm/page.tsx, lines 225–238 and 508–522) -/

/-- The CSV acceptance test used by both handlers:
`file.type === 'text/csv' || file.name.endsWith('.csv')`. -/
def isCsvLike (f : JSFile) : Bool :=
  f.type = "text/csv" || jsEndsWith f.name ".csv"

/-- `handleFileUpload` (lines 508–522), as a function of the selected file and
the previous `csvFile` / `csv_file`-error state.  The error entry is a plain
string, as in the source, where the cleared state is the empty string. -/
def handleFileUpload (file : Option JSFile) (csvFile : Option JSFile) (csvErr : String) :
    Option JSFile × String :=
  match file with
  | none => (csvFile, csvErr)
  | some f =>
    if isCsvLike f then
      if f.size > 10 * 1024 * 1024 then (csvFile, "File size must be less than 10MB")
      else (some f, "")
    else (csvFile, "Please select a valid CSV file")

/-- `handleDrop` (lines 225–238): takes the dropped file list, picks the first
CSV-like file if any, as a function of the previous `csvFile` / error state. -/
def handleDrop (files : List JSFile) (csvFile : Option JSFile) (_csvErr : String) :
    Option JSFile × String :=
  match files.find? isCsvLike with
  | some f => (some f, "")
  | none => (csvFile, "Please drop a valid CSV file")

/-! ## Campaign creation (src/app/dm/page.tsx, lines 317–366)

The network calls issued by `createCampaign` and its helpers
(`api.createCampaign`, and via `handleCSVUpload` / `handleFollowerScraping` /
`handleListMemberScraping` the calls `api.uploadCSV`, `api.scrapeFollowers`,
`api.scrapeListMembers`) are collected in order in a list.  Each helper
issues its API call exactly once, whatever that call's own outcome, so the
call list does not depend on the secondary calls' results.  The outcome of
the primary `api.createCampaign` call (as observed through the
`withCampaignToast` wrapper) is a parameter. -/

/-- A network call issued by the campaign-creation path. -/
inductive ApiCall where
  | createCampaign (draft : CampaignDraft)
  | uploadCSV (campaignId : Nat) (file : JSFile)
  | scrapeFollowers (campaignId : Nat) (username : String) (verified_only : Bool)
  | scrapeListMembers (campaignId : Nat) (listId : String)
deriving Repr, DecidableEq

/-- Outcome of the wrapped `api.createCampaign(newCampaign)` call:
a successful response carrying the new campaign's id, a failed response,
or a thrown exception. -/
inductive CreateResult where
  | success (campaignId : Nat)
  | failure
  | thrown
deriving Repr, DecidableEq

/-- Modelled from the spec: `withCampaignToast` lives in `src/lib/api.ts`,
which is not part of the provided sources (only its callers are).  Per the
spec's error taxonomy, a failed backend call is surfaced as an error message
notification; the wrapper then yields no response data, so the caller's
`if (response)` block is skipped.  This string is the notification surfaced
for a failed `Create Campaign` call. -/
def createCampaignFailureNote : String := "Create Campaign failed"

/-- The observable outcome of one `createCampaign` invocation: the network
calls issued in order, the form state afterwards (`newCampaign`, `csvFile`,
`validationErrors`), the blocking `error` state, the notifications surfaced,
and whether `resetForm` ran. -/
structure CreateOutcome where
  calls : List ApiCall
  draftAfter : CampaignDraft
  csvFileAfter : Option JSFile
  validationErrors : ValidationErrorSet
  errorMsg : Option String
  notifications : List String
  formReset : Bool
deriving Repr, DecidableEq

/-- `createCampaign` (lines 317–366), as a function of the draft, the attached
CSV file, and the primary call's outcome `r`.  On validation failure it
returns before any network call; on success it issues the secondary targeting
calls guarded exactly as in the source and resets the form; on failure or
exception the form state is left untouched. -/
def createCampaign (d : CampaignDraft) (csvFile : Option JSFile) (r : CreateResult) :
    CreateOutcome :=
  let errors := validationErrorsOf d csvFile
  if errors.isEmpty then
    match r with
    | .success campaignId =>
      let csvCalls :=
        match csvFile, d.target_type with
        | some f, .csv_upload => [ApiCall.uploadCSV campaignId f]
        | _, _ => []
      let followerCalls :=
        if d.target_type = .user_followers && !d.target_identifier.isEmpty then
          [ApiCall.scrapeFollowers campaignId d.target_identifier d.verified_only]
        else []
      let listCalls :=
        if d.target_type = .list_members && !d.target_identifier.isEmpty then
          [ApiCall.scrapeListMembers campaignId d.target_identifier]
        else []
      { calls := ApiCall.createCampaign d :: (csvCalls ++ followerCalls ++ listCalls)
        draftAfter := initialDraft
        csvFileAfter := none
        validationErrors := emptyErrors
        errorMsg := none
        notifications := ["Campaign created successfully"]
        formReset := true }
    | .failure =>
      { calls := [ApiCall.createCampaign d]
        draftAfter := d
        csvFileAfter := csvFile
        validationErrors := errors
        errorMsg := none
        notifications := [createCampaignFailureNote]
        formReset := false }
    | .thrown =>
      { calls := [ApiCall.createCampaign d]
        draftAfter := d
        csvFileAfter := csvFile
        validationErrors := errors
        errorMsg := some "Failed to create campaign. Please try again."
        notifications := []
        formReset := false }
  else
    { calls := []
      draftAfter := d
      csvFileAfter := csvFile
      validationErrors := errors
      errorMsg := some "Please fix the validation errors before creating the campaign"
      notifications := []
      formReset := false }

/-! ## OAuth callback handler (src/app/auth/x/callback/page.tsx, lines 16–111) -/

/-- The query parameters the callback page reads from the redirect URL
(`searchParams.get` returns `null` or a string). -/
structure CallbackQuery where
  code : Option String
  state : Option String
  error : Option String
  error_description : Option String
deriving Repr, DecidableEq

/-- The session-storage slots the handler touches (`null` when absent). -/
structure SessionStorage where
  x_oauth_state : Option String
  x_oauth_code_verifier : Option String
deriving Repr, DecidableEq

/-- A message posted to `window.opener` via `postMessage`; every message the
handler posts has `type: 'oauth-callback'` and carries either `code`/`state`
or an `error` string. -/
structure OAuthMessage where
  type : String
  code : Option String
  state : Option String
  error : Option String
deriving Repr, DecidableEq

/-- The request body of `api.exchangeXOAuthCode`. -/
structure ExchangeRequest where
  code : String
  code_verifier : String
  state : String
deriving Repr, DecidableEq

/-- Outcome of the `api.exchangeXOAuthCode` call: a successful response with
the connected handle, a failed response with an optional error string, or a
thrown exception. -/
inductive ExchangeResult where
  | success (screen_name : String)
  | failure (err : Option String)
  | thrown
deriving Repr, DecidableEq

/-- The page's `status` state variable. -/
inductive CallbackStatus where
  | processing
  | success
  | failed
deriving Repr, DecidableEq

/-- The observable outcome of one `handleCallback` run: messages posted to
the opener, whether the popup closed itself, the session storage afterwards,
which keys were read (`getItem`) and removed (`removeItem`), the
code-exchange calls issued, the final `status`/`message` state, and whether
a redirect back to `/accounts` was scheduled. -/
structure CallbackResult where
  posted : List OAuthMessage
  closedPopup : Bool
  storageAfter : SessionStorage
  storageReads : List String
  storageRemovals : List String
  exchangeCalls : List ExchangeRequest
  status : CallbackStatus
  message : String
  redirected : Bool
deriving Repr, DecidableEq

/-- `error_description || error` where `error` is known truthy. -/
def descOr (desc : Option String) (e : String) : String :=
  if truthy desc then desc.getD "" else e

/-- `handleCallback` (lines 16–111), as a function of whether
`window.opener` is set, the URL query, the initial session storage, and the
exchange call's outcome `ex` (consulted only if the exchange is reached). -/
def handleCallback (inPopup : Bool) (q : CallbackQuery) (store : SessionStorage)
    (ex : ExchangeResult) : CallbackResult :=
  if inPopup then
    let msg : OAuthMessage :=
      if truthy q.error then
        { type := "oauth-callback", code := none, state := none
          error := some (descOr q.error_description (q.error.getD "")) }
      else if truthy q.code && truthy q.state then
        { type := "oauth-callback", code := q.code, state := q.state, error := none }
      else
        { type := "oauth-callback", code := none, state := none
          error := some "Missing authorization code or state" }
    { posted := [msg], closedPopup := true, storageAfter := store
      storageReads := [], storageRemovals := [], exchangeCalls := []
      status := .processing, message := "Processing OAuth callback...", redirected := false }
  else if truthy q.error then
    { posted := [], closedPopup := false, storageAfter := store
      storageReads := [], storageRemovals := [], exchangeCalls := []
      status := .failed
      message := "OAuth error: " ++ descOr q.error_description (q.error.getD "")
        ++ ". Please try connecting your account again."
      redirected := false }
  else if !(truthy q.code && truthy q.state) then
    { posted := [], closedPopup := false, storageAfter := store
      storageReads := [], storageRemovals := [], exchangeCalls := []
      status := .failed
      message := "Missing OAuth parameters. Please try connecting your account again."
      redirected := false }
  else
    let reads := ["x_oauth_state", "x_oauth_code_verifier"]
    let storedState := store.x_oauth_state
    let codeVerifier := store.x_oauth_code_verifier
    if !(truthy storedState && truthy codeVerifier) then
      { posted := [], closedPopup := false, storageAfter := store
        storageReads := reads, storageRemovals := [], exchangeCalls := []
        status := .failed
        message := "OAuth session expired. Please try connecting your account again."
        redirected := false }
    else if q.state.getD "" ≠ storedState.getD "" then
      { posted := [], closedPopup := false, storageAfter := store
        storageReads := reads, storageRemovals := [], exchangeCalls := []
        status := .failed
        message := "Invalid state parameter. Please try connecting your account again."
        redirected := false }
    else
      let req : ExchangeRequest :=
        { code := q.code.getD "", code_verifier := codeVerifier.getD ""
          state := q.state.getD "" }
      let base : CallbackResult :=
        { posted := [], closedPopup := false
          storageAfter := { x_oauth_state := none, x_oauth_code_verifier := none }
          storageReads := reads
          storageRemovals := ["x_oauth_state", "x_oauth_code_verifier"]
          exchangeCalls := [req]
          status := .processing, message := "Processing OAuth callback...", redirected := false }
      match ex with
      | .success screen_name =>
        { base with status := .success
                    message := "Successfully connected @" ++ screen_name ++ "!"
                    redirected := true }
      | .failure err =>
        { base with status := .failed
                    message :=
                      if truthy err then err.getD ""
                      else "Failed to connect account. Please try again." }
      | .thrown =>
        { base with status := .failed
                    message := "An unexpected error occurred. Please try again." }

/-! ## Field identifiers for the validation error set -/

/-- The field keys `validateForm` may populate. -/
inductive FieldId where
  | name
  | sender_account_id
  | message_template
  | target_identifier
  | csv_file
deriving Repr, DecidableEq

/-- Projection of a `ValidationErrorSet` at a field key. -/
def fieldEntry (e : ValidationErrorSet) : FieldId → Option String
  | .name => e.name
  | .sender_account_id => e.sender_account_id
  | .message_template => e.message_template
  | .target_identifier => e.target_identifier
  | .csv_file => e.csv_file

/-- The required field `fld` is missing from the draft: empty (after
trimming) name / template / type-specific identifier, unset sender account,
or, for `csv_upload`, no attached file. -/
def requiredMissing : FieldId → CampaignDraft → Option JSFile → Prop
  | .name, d, _ => jsTrim d.name = ""
  | .sender_account_id, d, _ => d.sender_account_id = 0
  | .message_template, d, _ => jsTrim d.message_template = ""
  | .target_identifier, d, _ =>
      (d.target_type = .user_followers ∨ d.target_type = .list_members)
        ∧ jsTrim d.target_identifier = ""
  | .csv_file, d, f => d.target_type = .csv_upload ∧ f = none

/-! ## Helper lemmas -/

theorem jsTrim_empty : jsTrim "" = "" := rfl

theorem validateUsername_empty : validateUsername "" = some "Username is required" := by decide

theorem validateListId_empty : validateListId "" = some "List ID is required" := by decide

theorem validateUsername_not_isEmpty {u : String} (h : validateUsername u = none) :
    u.isEmpty = false := by
  by_contra hne
  have hu : u = "" := (String.isEmpty_iff u).1 (by revert hne; cases u.isEmpty <;> simp)
  rw [hu, validateUsername_empty] at h
  exact Option.noConfusion h

theorem validateListId_not_isEmpty {u : String} (h : validateListId u = none) :
    u.isEmpty = false := by
  by_contra hne
  have hu : u = "" := (String.isEmpty_iff u).1 (by revert hne; cases u.isEmpty <;> simp)
  rw [hu, validateListId_empty] at h
  exact Option.noConfusion h

theorem entry_ne_none_isEmpty_false {e : ValidationErrorSet} {fld : FieldId}
    (h : fieldEntry e fld ≠ none) : e.isEmpty = false := by
  cases fld <;>
    simp only [fieldEntry] at h <;>
    simp [ValidationErrorSet.isEmpty, Option.isNone_iff_eq_none, Option.isSome_iff_ne_none, h]

/-! ## Claims -/

/-- C8: the target-identifier validation matches the per-type reference
predicate: for `user_followers`, every identifier containing `@`, or longer
than 15 characters, or containing a character outside `[A-Za-z0-9_]`, is
rejected by `validateUsername`, while `elonmusk` is accepted; for
`list_members`, `12345` is accepted by `validateListId` and `abc123` is
rejected. -/
theorem target_identifier_validation_reference (u : String) :
    (jsIncludes u '@' = true → validateUsername u ≠ none)
    ∧ (15 < u.length → validateUsername u ≠ none)
    ∧ ((∃ c ∈ u.data, isWordChar c = false) → validateUsername u ≠ none)
    ∧ validateUsername "elonmusk" = none
    ∧ validateListId "12345" = none
    ∧ validateListId "abc123" ≠ none := by
  refine ⟨?_, ?_, ?_, by decide, by decide, by decide⟩
  · intro h
    unfold validateUsername
    by_cases h1 : (jsTrim u).isEmpty <;> simp [h1, h]
  · intro h
    unfold validateUsername
    by_cases h1 : (jsTrim u).isEmpty <;> simp [h1]
    by_cases h2 : jsIncludes u '@' <;> simp [h2]
    simp [h]
  · rintro ⟨c, hc, hcw⟩
    have hw : wordRegexTest u = false := by
      unfold wordRegexTest
      have hall : u.data.all isWordChar = false := by
        rw [Bool.eq_false_iff]
        intro hall
        rw [List.all_eq_true] at hall
        exact Bool.noConfusion (hcw ▸ hall c hc)
      simp [hall]
    unfold validateUsername
    by_cases h1 : (jsTrim u).isEmpty <;> simp [h1]
    by_cases h2 : jsIncludes u '@' <;> simp [h2]
    split <;> simp [hw]

/-- C8 witness: concrete identifiers exercising every hypothesis of the
theorem — an identifier with `@`, one of length 16, one with a dash. -/
theorem target_identifier_validation_reference_witness :
    validateUsername "with@sign" ≠ none
    ∧ validateUsername "abcdefghijklmnop" ≠ none
    ∧ validateUsername "dash-name" ≠ none
    ∧ validateUsername "elonmusk" = none
    ∧ validateListId "12345" = none
    ∧ validateListId "abc123" ≠ none :=
  ⟨(target_identifier_validation_reference "with@sign").1 (by decide),
   (target_identifier_validation_reference "abcdefghijklmnop").2.1 (by decide),
   (target_identifier_validation_reference "dash-name").2.2.1 ⟨'-', by decide, by decide⟩,
   (target_identifier_validation_reference "x").2.2.2.1,
   (target_identifier_validation_reference "x").2.2.2.2.1,
   (target_identifier_validation_reference "x").2.2.2.2.2⟩

/-- C9: `validateTemplate` enforces the 10–280 length bounds: every template
of length 9 is rejected, and with actual (non-whitespace) content the
message is the "at least 10" one; every length-280 template with content is
accepted; every length-281 template is rejected. -/
theorem template_length_bounds (t : String) :
    (t.length = 9 → validateTemplate t ≠ none)
    ∧ (t.length = 9 → (jsTrim t).isEmpty = false →
        validateTemplate t = some "Message template should be at least 10 characters")
    ∧ (t.length = 280 → (jsTrim t).isEmpty = false → validateTemplate t = none)
    ∧ (t.length = 281 → validateTemplate t ≠ none) := by
  refine ⟨?_, ?_, ?_, ?_⟩
  · intro h
    unfold validateTemplate
    by_cases h1 : (jsTrim t).isEmpty <;> simp [h1, h]
  · intro h h1
    unfold validateTemplate
    simp [h1, h]
  · intro h h1
    unfold validateTemplate
    simp [h1, h]
  · intro h
    unfold validateTemplate
    by_cases h1 : (jsTrim t).isEmpty <;> simp [h1, h]

set_option maxRecDepth 8000 in
/-- C9 witness: a 9-character template is rejected with the "at least 10"
message, the 280-character template of all `a` is accepted, and the
281-character one is rejected. -/
theorem template_length_bounds_witness :
    validateTemplate "abcdefghi" ≠ none
    ∧ validateTemplate "abcdefghi" = some "Message template should be at least 10 characters"
    ∧ validateTemplate (String.mk (List.replicate 280 'a')) = none
    ∧ validateTemplate (String.mk (List.replicate 281 'a')) ≠ none :=
  ⟨(template_length_bounds "abcdefghi").1 (by decide),
   (template_length_bounds "abcdefghi").2.1 (by decide) (by decide),
   (template_length_bounds (String.mk (List.replicate 280 'a'))).2.2.1 (by decide) (by decide),
   (template_length_bounds (String.mk (List.replicate 281 'a'))).2.2.2 (by decide)⟩

/-- C1: for a draft missing a required field — name, sender account, message
template, or the target-type-specific identifier/file — the computed
validation error set has a non-empty entry at exactly that field, and
`createCampaign` returns without issuing any network call, whatever the
backend would have answered. -/
theorem missing_required_field_blocks_submit (fld : FieldId) (d : CampaignDraft)
    (f : Option JSFile) (r : CreateResult) (h : requiredMissing fld d f) :
    fieldEntry (validationErrorsOf d f) fld ≠ none
    ∧ (createCampaign d f r).calls = [] := by
  have hentry : fieldEntry (validationErrorsOf d f) fld ≠ none := by
    cases fld with
    | name =>
      simp only [requiredMissing] at h
      have hb : (jsTrim d.name).isEmpty = true := by rw [h]; rfl
      simp [fieldEntry, validationErrorsOf, hb]
    | sender_account_id =>
      simp only [requiredMissing] at h
      simp [fieldEntry, validationErrorsOf, h]
    | message_template =>
      simp only [requiredMissing] at h
      have hb : (jsTrim d.message_template).isEmpty = true := by rw [h]; rfl
      simp [fieldEntry, validationErrorsOf, validateTemplate, hb]
    | target_identifier =>
      obtain ⟨hor, htrim⟩ := h
      have hb : (jsTrim d.target_identifier).isEmpty = true := by rw [htrim]; rfl
      rcases hor with hty | hty <;>
        simp [fieldEntry, validationErrorsOf, hty, validateUsername, validateListId, hb]
    | csv_file =>
      obtain ⟨hty, hf⟩ := h
      simp [fieldEntry, validationErrorsOf, hty, hf]
  refine ⟨hentry, ?_⟩
  have hfalse := entry_ne_none_isEmpty_false hentry
  unfold createCampaign
  simp [hfalse]

/-- C1 witness: the initial (all-empty) draft is missing name, sender
account, template and identifier at once; with `target_type` switched to
`csv_upload` and no file attached it is missing the CSV file.  In every case
the matching error entry is populated and no network call is issued. -/
theorem missing_required_field_blocks_submit_witness :
    (fieldEntry (validationErrorsOf initialDraft none) .name ≠ none
      ∧ (createCampaign initialDraft none .failure).calls = [])
    ∧ (fieldEntry (validationErrorsOf initialDraft none) .sender_account_id ≠ none
      ∧ (createCampaign initialDraft none .failure).calls = [])
    ∧ (fieldEntry (validationErrorsOf initialDraft none) .message_template ≠ none
      ∧ (createCampaign initialDraft none .failure).calls = [])
    ∧ (fieldEntry (validationErrorsOf initialDraft none) .target_identifier ≠ none
      ∧ (createCampaign initialDraft none .failure).calls = [])
    ∧ (fieldEntry
        (validationErrorsOf { initialDraft with target_type := .csv_upload } none) .csv_file ≠ none
      ∧ (createCampaign { initialDraft with target_type := .csv_upload } none .failure).calls
          = []) :=
  ⟨missing_required_field_blocks_submit .name initialDraft none .failure
     (by unfold requiredMissing; decide),
   missing_required_field_blocks_submit .sender_account_id initialDraft none .failure
     (by unfold requiredMissing; decide),
   missing_required_field_blocks_submit .message_template initialDraft none .failure
     (by unfold requiredMissing; decide),
   missing_required_field_blocks_submit .target_identifier initialDraft none .failure
     (by unfold requiredMissing; decide),
   missing_required_field_blocks_submit .csv_file { initialDraft with target_type := .csv_upload }
     none .failure (by unfold requiredMissing; decide)⟩

/-- C6: when validation passes and the backend create call succeeds with id
`cid`, `createCampaign` issues exactly the primary call followed by the one
secondary targeting call matching the draft's `target_type` — `uploadCSV`
for `csv_upload`, `scrapeFollowers` for `user_followers`,
`scrapeListMembers` for `list_members` — never zero and never more than
one. -/
theorem one_matching_secondary_call (d : CampaignDraft) (f : Option JSFile) (cid : Nat)
    (hv : (validationErrorsOf d f).isEmpty = true) :
    (createCampaign d f (.success cid)).calls.length = 2
    ∧ (match d.target_type with
      | .csv_upload => ∃ file, f = some file
          ∧ (createCampaign d f (.success cid)).calls
              = [.createCampaign d, .uploadCSV cid file]
      | .user_followers => (createCampaign d f (.success cid)).calls
          = [.createCampaign d, .scrapeFollowers cid d.target_identifier d.verified_only]
      | .list_members => (createCampaign d f (.success cid)).calls
          = [.createCampaign d, .scrapeListMembers cid d.target_identifier]) := by
  have hmain : (match d.target_type with
      | .csv_upload => ∃ file, f = some file
          ∧ (createCampaign d f (.success cid)).calls
              = [.createCampaign d, .uploadCSV cid file]
      | .user_followers => (createCampaign d f (.success cid)).calls
          = [.createCampaign d, .scrapeFollowers cid d.target_identifier d.verified_only]
      | .list_members => (createCampaign d f (.success cid)).calls
          = [.createCampaign d, .scrapeListMembers cid d.target_identifier]) := by
    have hfields := hv
    simp only [ValidationErrorSet.isEmpty, Bool.and_eq_true, Option.isNone_iff_eq_none] at hfields
    obtain ⟨⟨⟨⟨-, -⟩, -⟩, hid⟩, hcsv⟩ := hfields
    rcases hty : d.target_type with _ | _ | _
    · simp only [validationErrorsOf, hty] at hid
      have hne : d.target_identifier.isEmpty = false := validateUsername_not_isEmpty hid
      cases f with
      | none => simp [createCampaign, hv, hty, hne]
      | some file => simp [createCampaign, hv, hty, hne]
    · simp only [validationErrorsOf, hty] at hid
      have hne : d.target_identifier.isEmpty = false := validateListId_not_isEmpty hid
      cases f with
      | none => simp [createCampaign, hv, hty, hne]
      | some file => simp [createCampaign, hv, hty, hne]
    · cases f with
      | none => simp [validationErrorsOf, hty] at hcsv
      | some file =>
        refine ⟨file, rfl, ?_⟩
        simp [createCampaign, hv, hty]
  refine ⟨?_, hmain⟩
  rcases hty : d.target_type with _ | _ | _ <;> rw [hty] at hmain
  · rw [hmain]; rfl
  · rw [hmain]; rfl
  · obtain ⟨file, -, hcalls⟩ := hmain
    rw [hcalls]; rfl

/-- C6 witness: a fully valid follower-targeting draft leads to exactly the
`createCampaign` call followed by the matching `scrapeFollowers` call. -/
theorem one_matching_secondary_call_witness :
    ((createCampaign
        { initialDraft with
            name := "camp", sender_account_id := 3
            message_template := "hello there friend", target_identifier := "elonmusk" }
        none (.success 7)).calls.length = 2)
    ∧ (createCampaign
        { initialDraft with
            name := "camp", sender_account_id := 3
            message_template := "hello there friend", target_identifier := "elonmusk" }
        none (.success 7)).calls
        = [.createCampaign
            { initialDraft with
                name := "camp", sender_account_id := 3
                message_template := "hello there friend", target_identifier := "elonmusk" },
           .scrapeFollowers 7 "elonmusk" false] :=
  ⟨(one_matching_secondary_call
      { initialDraft with
          name := "camp", sender_account_id := 3
          message_template := "hello there friend", target_identifier := "elonmusk" }
      none 7 (by decide)).1,
   (one_matching_secondary_call
      { initialDraft with
          name := "camp", sender_account_id := 3
          message_template := "hello there friend", target_identifier := "elonmusk" }
      none 7 (by decide)).2⟩

/-- C7: when validation passes but the backend create call fails (error
response or thrown exception), the draft and the attached CSV file are left
unchanged, the form is not reset, and an error is surfaced — as a blocking
error-state message on the thrown path, or as the failure notification of
the toast wrapper on the error-response path. -/
theorem create_failure_leaves_draft_intact (d : CampaignDraft) (f : Option JSFile)
    (r : CreateResult) (hv : (validationErrorsOf d f).isEmpty = true)
    (hr : r = .failure ∨ r = .thrown) :
    (createCampaign d f r).draftAfter = d
    ∧ (createCampaign d f r).csvFileAfter = f
    ∧ (createCampaign d f r).formReset = false
    ∧ ((createCampaign d f r).errorMsg ≠ none ∨ (createCampaign d f r).notifications ≠ []) := by
  rcases hr with hr | hr <;> subst hr <;> simp [createCampaign, hv]

/-- C7 witness: the same valid draft with a failed and a thrown backend
call keeps the draft and stays un-reset. -/
theorem create_failure_leaves_draft_intact_witness :
    ((createCampaign
        { initialDraft with
            name := "camp", sender_account_id := 3
            message_template := "hello there friend", target_identifier := "elonmusk" }
        none .failure).draftAfter
      = { initialDraft with
            name := "camp", sender_account_id := 3
            message_template := "hello there friend", target_identifier := "elonmusk" }
      ∧ (createCampaign
          { initialDraft with
              name := "camp", sender_account_id := 3
              message_template := "hello there friend", target_identifier := "elonmusk" }
          none .failure).csvFileAfter = none
      ∧ (createCampaign
          { initialDraft with
              name := "camp", sender_account_id := 3
              message_template := "hello there friend", target_identifier := "elonmusk" }
          none .failure).formReset = false
      ∧ ((createCampaign
          { initialDraft with
              name := "camp", sender_account_id := 3
              message_template := "hello there friend", target_identifier := "elonmusk" }
          none .failure).errorMsg ≠ none
        ∨ (createCampaign
            { initialDraft with
                name := "camp", sender_account_id := 3
                message_template := "hello there friend", target_identifier := "elonmusk" }
            none .failure).notifications ≠ [])) :=
  create_failure_leaves_draft_intact
    { initialDraft with
        name := "camp", sender_account_id := 3
        message_template := "hello there friend", target_identifier := "elonmusk" }
    none .failure (by decide) (Or.inl rfl)

/-- C3 counterexample: a `text/csv` file of 11 MiB (11534336 bytes, above the
10 MB limit 10485760) dropped on the drag-and-drop handler is accepted into
the draft with the `csv_file` error cleared — no size check happens on the
drop path, refuting the claim that every accepted file has size ≤ 10 MB. -/
theorem oversized_csv_accepted_by_drop :
    handleDrop [⟨"big.csv", "text/csv", 11534336⟩] none ""
      = (some ⟨"big.csv", "text/csv", 11534336⟩, "")
    ∧ 10 * 1024 * 1024 < 11534336 := by decide

/-- C3 amended: the file-picker handler accepts exactly the CSV-like files of
size ≤ 10 MB, rejecting an oversized or non-CSV selection with a `csv_file`
error and leaving the attached file unchanged; the drag-and-drop handler
accepts the first CSV-like dropped file without any size check, and rejects
with a `csv_file` error when no dropped file is CSV-like. -/
theorem csv_acceptance_per_handler (f : JSFile) (files : List JSFile)
    (csv : Option JSFile) (err : String) :
    (isCsvLike f = true → f.size ≤ 10 * 1024 * 1024 →
      handleFileUpload (some f) csv err = (some f, ""))
    ∧ (isCsvLike f = true → 10 * 1024 * 1024 < f.size →
      handleFileUpload (some f) csv err = (csv, "File size must be less than 10MB"))
    ∧ (isCsvLike f = false →
      handleFileUpload (some f) csv err = (csv, "Please select a valid CSV file"))
    ∧ (∀ g, files.find? isCsvLike = some g →
      handleDrop files csv err = (some g, "") ∧ isCsvLike g = true)
    ∧ (files.find? isCsvLike = none →
      handleDrop files csv err = (csv, "Please drop a valid CSV file")) := by
  refine ⟨?_, ?_, ?_, ?_, ?_⟩
  · intro hc hsz
    simp [handleFileUpload, hc, Nat.not_lt.mpr hsz]
  · intro hc hsz
    simp [handleFileUpload, hc, hsz]
  · intro hc
    simp [handleFileUpload, hc]
  · intro g hg
    exact ⟨by simp [handleDrop, hg], List.find?_some hg⟩
  · intro hg
    simp [handleDrop, hg]

/-- C3 amended witness: a small CSV is accepted by the picker, an oversized
one rejected by the picker but accepted by the drop handler, a text file
rejected by both. -/
theorem csv_acceptance_per_handler_witness :
    handleFileUpload (some ⟨"ok.csv", "text/csv", 1024⟩) none "" = (some ⟨"ok.csv", "text/csv", 1024⟩, "")
    ∧ handleFileUpload (some ⟨"big.csv", "text/csv", 11534336⟩) none ""
        = (none, "File size must be less than 10MB")
    ∧ handleFileUpload (some ⟨"notes.txt", "text/plain", 10⟩) none ""
        = (none, "Please select a valid CSV file")
    ∧ (handleDrop [⟨"big.csv", "text/csv", 11534336⟩] none "" = (some ⟨"big.csv", "text/csv", 11534336⟩, "")
        ∧ isCsvLike ⟨"big.csv", "text/csv", 11534336⟩ = true)
    ∧ handleDrop [⟨"notes.txt", "text/plain", 10⟩] none "" = (none, "Please drop a valid CSV file") :=
  ⟨(csv_acceptance_per_handler ⟨"ok.csv", "text/csv", 1024⟩ [] none "").1 (by decide) (by decide),
   (csv_acceptance_per_handler ⟨"big.csv", "text/csv", 11534336⟩ [] none "").2.1 (by decide) (by decide),
   (csv_acceptance_per_handler ⟨"notes.txt", "text/plain", 10⟩ [] none "").2.2.1 (by decide),
   (csv_acceptance_per_handler ⟨"x", "y", 0⟩ [⟨"big.csv", "text/csv", 11534336⟩] none "").2.2.2.1
     ⟨"big.csv", "text/csv", 11534336⟩ (by decide),
   (csv_acceptance_per_handler ⟨"x", "y", 0⟩ [⟨"notes.txt", "text/plain", 10⟩] none "").2.2.2.2
     (by decide)⟩

/-- A nonempty string is not `isEmpty`. -/
theorem isEmpty_false_of_ne {s : String} (h : s ≠ "") : s.isEmpty = false := by
  rw [Bool.eq_false_iff]
  intro hb
  exact h ((String.isEmpty_iff s).1 hb)

/-- C2 counterexample: with `state_token = "S1"` and `code_verifier = "V1"`
stored, a legacy callback carrying `code = "C"` and `state = "S2"` reads both
secrets from session storage but returns on the state-mismatch path without
removing either — they are still stored afterwards, refuting the claim that
they are deleted whenever read. -/
theorem state_mismatch_leaves_secrets_stored :
    (handleCallback false ⟨some "C", some "S2", none, none⟩ ⟨some "S1", some "V1"⟩
        .thrown).storageReads = ["x_oauth_state", "x_oauth_code_verifier"]
    ∧ (handleCallback false ⟨some "C", some "S2", none, none⟩ ⟨some "S1", some "V1"⟩
        .thrown).storageRemovals = []
    ∧ (handleCallback false ⟨some "C", some "S2", none, none⟩ ⟨some "S1", some "V1"⟩
        .thrown).storageAfter = ⟨some "S1", some "V1"⟩ := by decide

/-- C2 amended: in the legacy callback, when the stored secrets are read,
present, and the callback state matches the stored state token, both are
removed from session storage before the handler finishes, whether the
exchange succeeds, fails, or throws; on the state-mismatch path the handler
returns without deleting them. -/
theorem secrets_cleared_exactly_on_state_match (q : CallbackQuery) (store : SessionStorage)
    (ex : ExchangeResult) (herr : truthy q.error = false) (hcode : truthy q.code = true)
    (hstate : truthy q.state = true) (hs : truthy store.x_oauth_state = true)
    (hv : truthy store.x_oauth_code_verifier = true)
    (hmatch : q.state.getD "" = store.x_oauth_state.getD "") :
    (handleCallback false q store ex).storageReads = ["x_oauth_state", "x_oauth_code_verifier"]
    ∧ (handleCallback false q store ex).storageRemovals
        = ["x_oauth_state", "x_oauth_code_verifier"]
    ∧ (handleCallback false q store ex).storageAfter = ⟨none, none⟩ := by
  unfold handleCallback
  cases ex <;> simp [herr, hcode, hstate, hs, hv, hmatch]

/-- C2 amended witness: matching state `"S1"` with a throwing exchange — the
secrets are removed even though the exchange did not succeed. -/
theorem secrets_cleared_exactly_on_state_match_witness :
    (handleCallback false ⟨some "C", some "S1", none, none⟩ ⟨some "S1", some "V1"⟩
        .thrown).storageReads = ["x_oauth_state", "x_oauth_code_verifier"]
    ∧ (handleCallback false ⟨some "C", some "S1", none, none⟩ ⟨some "S1", some "V1"⟩
        .thrown).storageRemovals = ["x_oauth_state", "x_oauth_code_verifier"]
    ∧ (handleCallback false ⟨some "C", some "S1", none, none⟩ ⟨some "S1", some "V1"⟩
        .thrown).storageAfter = ⟨none, none⟩ :=
  secrets_cleared_exactly_on_state_match ⟨some "C", some "S1", none, none⟩
    ⟨some "S1", some "V1"⟩ .thrown (by decide) (by decide) (by decide) (by decide) (by decide)
    (by decide)

/-- C4: in the legacy callback, for every stored state token `s1` and
callback state `s2 ≠ s1` (code and state both present, both secrets stored),
the handler ends in the error state with the "Invalid state parameter"
message and never calls the code-exchange endpoint, whatever the exchange
outcome would have been. -/
theorem state_mismatch_fails_without_exchange (c s2 s1 v : String) (ex : ExchangeResult)
    (hc : c ≠ "") (hs2 : s2 ≠ "") (hs1 : s1 ≠ "") (hv : v ≠ "") (hne : s2 ≠ s1) :
    (handleCallback false ⟨some c, some s2, none, none⟩ ⟨some s1, some v⟩ ex).status = .failed
    ∧ (handleCallback false ⟨some c, some s2, none, none⟩ ⟨some s1, some v⟩ ex).message
        = "Invalid state parameter. Please try connecting your account again."
    ∧ (handleCallback false ⟨some c, some s2, none, none⟩ ⟨some s1, some v⟩ ex).exchangeCalls
        = [] := by
  unfold handleCallback
  simp [truthy, isEmpty_false_of_ne hc, isEmpty_false_of_ne hs2, isEmpty_false_of_ne hs1,
    isEmpty_false_of_ne hv, hne]

/-- C4 witness: concrete mismatching states `"S2"` vs stored `"S1"`. -/
theorem state_mismatch_fails_without_exchange_witness :
    (handleCallback false ⟨some "C", some "S2", none, none⟩ ⟨some "S1", some "V1"⟩
        .thrown).status = .failed
    ∧ (handleCallback false ⟨some "C", some "S2", none, none⟩ ⟨some "S1", some "V1"⟩
        .thrown).message = "Invalid state parameter. Please try connecting your account again."
    ∧ (handleCallback false ⟨some "C", some "S2", none, none⟩ ⟨some "S1", some "V1"⟩
        .thrown).exchangeCalls = [] :=
  state_mismatch_fails_without_exchange "C" "S2" "S1" "V1" .thrown (by decide) (by decide)
    (by decide) (by decide) (by decide)

/-- C5 counterexample: in popup mode with `code = "C"`, `state = "S"` and an
`error = "access_denied"` parameter all present, the single posted message is
the error payload and does not carry the code/state pair, refuting the claim
that the message carries `{code, state}` whenever both are present. -/
theorem popup_error_overrides_code_payload :
    (handleCallback true ⟨some "C", some "S", some "access_denied", none⟩ ⟨none, none⟩
        .thrown).posted = [⟨"oauth-callback", none, none, some "access_denied"⟩]
    ∧ truthy (some "C") = true ∧ truthy (some "S") = true := by decide

/-- C5 amended: every popup-mode invocation posts exactly one message, always
of type `oauth-callback`, and never calls the code-exchange endpoint; the
message carries `{code, state}` when both are present and no error parameter
is present, and an error payload otherwise. -/
theorem popup_posts_exactly_one_message (q : CallbackQuery) (store : SessionStorage)
    (ex : ExchangeResult) :
    (handleCallback true q store ex).posted.length = 1
    ∧ (∀ m ∈ (handleCallback true q store ex).posted, m.type = "oauth-callback")
    ∧ (handleCallback true q store ex).exchangeCalls = []
    ∧ (truthy q.error = false → truthy q.code = true → truthy q.state = true →
        (handleCallback true q store ex).posted = [⟨"oauth-callback", q.code, q.state, none⟩])
    ∧ (truthy q.error = true →
        (handleCallback true q store ex).posted
          = [⟨"oauth-callback", none, none, some (descOr q.error_description (q.error.getD ""))⟩])
    ∧ (truthy q.error = false → (truthy q.code && truthy q.state) = false →
        (handleCallback true q store ex).posted
          = [⟨"oauth-callback", none, none, some "Missing authorization code or state"⟩]) := by
  refine ⟨?_, ?_, ?_, ?_, ?_, ?_⟩ <;> unfold handleCallback
  · by_cases he : truthy q.error <;> by_cases hc : truthy q.code <;>
      by_cases hs : truthy q.state <;> simp [he, hc, hs]
  · by_cases he : truthy q.error <;> by_cases hc : truthy q.code <;>
      by_cases hs : truthy q.state <;> simp [he, hc, hs]
  · simp
  · intro he hc hs
    simp [he, hc, hs]
  · intro he
    simp [he]
  · intro he hcs
    simp [he, hcs]

/-- C5 amended witness: the three popup payload shapes at concrete inputs,
and the absence of exchange calls. -/
theorem popup_posts_exactly_one_message_witness :
    (handleCallback true ⟨some "C", some "S", none, none⟩ ⟨none, none⟩ .thrown).posted
      = [⟨"oauth-callback", some "C", some "S", none⟩]
    ∧ (handleCallback true ⟨none, none, some "denied", none⟩ ⟨none, none⟩ .thrown).posted
      = [⟨"oauth-callback", none, none, some "denied"⟩]
    ∧ (handleCallback true ⟨none, none, none, none⟩ ⟨none, none⟩ .thrown).posted
      = [⟨"oauth-callback", none, none, some "Missing authorization code or state"⟩]
    ∧ (handleCallback true ⟨some "C", some "S", none, none⟩ ⟨none, none⟩
        .thrown).exchangeCalls = [] :=
  ⟨(popup_posts_exactly_one_message ⟨some "C", some "S", none, none⟩ ⟨none, none⟩
      .thrown).2.2.2.1 (by decide) (by decide) (by decide),
   (popup_posts_exactly_one_message ⟨none, none, some "denied", none⟩ ⟨none, none⟩
      .thrown).2.2.2.2.1 (by decide),
   (popup_posts_exactly_one_message ⟨none, none, none, none⟩ ⟨none, none⟩
      .thrown).2.2.2.2.2 (by decide) (by decide),
   (popup_posts_exactly_one_message ⟨some "C", some "S", none, none⟩ ⟨none, none⟩
      .thrown).2.2.1⟩

/-- C10: every popup-mode invocation returns after posting without reading or
removing the session-stored secrets — the storage is untouched and remains
available for the opener — and issues no exchange call; the popup closes
itself. -/
theorem popup_leaves_storage_untouched (q : CallbackQuery) (store : SessionStorage)
    (ex : ExchangeResult) :
    (handleCallback true q store ex).storageReads = []
    ∧ (handleCallback true q store ex).storageRemovals = []
    ∧ (handleCallback true q store ex).storageAfter = store
    ∧ (handleCallback true q store ex).exchangeCalls = []
    ∧ (handleCallback true q store ex).closedPopup = true := by
  unfold handleCallback
  simp

end XAutoDM
